import Mathlib

/-! Shallow embedding of the `video-analyzer` repository
(`src/video_analyzer.py` and `src/fastapi_app.py`).

The program is a sequential orchestration pipeline: download a video with
yt-dlp, upload it to the Gemini inference service, poll the remote file
state, request an analysis, extract a title, and search Tavily for
streaming options.  All external calls (yt-dlp, the genai SDK, Tavily)
are modelled by oracles supplied in an environment record: each oracle
gives the outcome of the corresponding call (a value or a raised
exception) together with its side effect on the local disk, which is
modelled explicitly as a list of (path, size) entries.  Side-effecting
requests (download attempts, uploads, polls, sleeps, generation requests,
deletion requests, removals) are recorded in an event trace so that
theorems can speak about which requests were issued and in what order.
-/

namespace VideoAnalyzer

/-- An exception value raised by an external call; only its message is
observable to the program. -/
structure Exn where
  msg : String
deriving DecidableEq, Repr

/-- A file on disk: its path and its size in bytes. -/
structure FileEntry where
  path : String
  size : Nat
deriving DecidableEq, Repr

/-- The local filesystem, as the finite collection of files visible to the
program. -/
abbrev Disk := List FileEntry

/-- Model of `os.path.exists`. -/
def Disk.hasPath (d : Disk) (p : String) : Bool :=
  d.any (fun f => f.path == p)

/-- Model of `os.path.getsize` (the program only calls it on paths it has
checked to exist). -/
def Disk.getsize (d : Disk) (p : String) : Nat :=
  match d.find? (fun f => f.path == p) with
  | some f => f.size
  | none => 0

/-- Model of `os.remove`. -/
def Disk.remove (d : Disk) (p : String) : Disk :=
  d.filter (fun f => f.path != p)

/-! Fetcher: `download_video_from_url` (src/video_analyzer.py, lines 18-140). -/

/-- The yt-dlp options dictionary assembled by `download_video_from_url`. -/
structure YdlOpts where
  format : String
  merge_output_format : Option String
  outtmpl : String
  quiet : Bool
  noplaylist : Bool
  cookiefile : Option String
  /-- whether the `extractor_args` entry selecting the android/web player
  clients is present (only in the FFmpeg branch). -/
  playerClientAndroidWeb : Bool
deriving DecidableEq, Repr

/-- Oracle for one `ydl.extract_info(url, download=True)` call: the library
writes `created` files into the temp directory (possibly partial downloads)
and then either returns info — observable through
`ydl.prepare_filename(info)`, modelled as the returned string — or raises. -/
structure YdlCall where
  created : List FileEntry
  result : Except Exn String
deriving Repr

/-- Environment of one `download_video_from_url` run: host facts
(`shutil.which('ffmpeg')`, the `YOUTUBE_COOKIES` environment variable, the
temp dir and the fresh uuid) and the oracles for the at most two yt-dlp
calls. -/
structure DownloadEnv where
  tempDir : String
  uuidBase : String
  ffmpeg : Bool
  cookies : Option String
  /-- path of the `NamedTemporaryFile` holding the cookies, when created. -/
  cookiePath : String
  call1 : YdlCall
  call2 : YdlCall
deriving Repr

/-- Python truthiness of `os.environ.get("YOUTUBE_COOKIES")`: present and
non-empty. -/
def cookieTruthy : Option String → Bool
  | some c => c != ""
  | none => false

/-- Observable side effects of the fetch stage. -/
inductive FetchEvent where
  | attempt (opts : YdlOpts)
  | removeFile (p : String)
  | removeCookie (p : String)
deriving DecidableEq, Repr

/-- `str(pathlib.Path(temp_dir) / f"{base}.%(ext)s")`. -/
def outputTemplate (env : DownloadEnv) : String :=
  env.tempDir ++ "/" ++ env.uuidBase ++ ".%(ext)s"

/-- `str(pathlib.Path(temp_dir) / f"{base}.mp4")`, the expected merged
output in the FFmpeg branch. -/
def expectedMerged (env : DownloadEnv) : String :=
  env.tempDir ++ "/" ++ env.uuidBase ++ ".mp4"

/-- Paths matched by the fallback `Path(temp_dir).glob(f"{base}.*")`. -/
def globMatchBase (env : DownloadEnv) : String :=
  env.tempDir ++ "/" ++ env.uuidBase ++ "."

/-- The options of the first download attempt (lines 52-76). -/
def opts1 (env : DownloadEnv) : YdlOpts :=
  let cf := if cookieTruthy env.cookies then some env.cookiePath else none
  if env.ffmpeg then
    { format := "bestvideo+bestaudio/best"
      merge_output_format := some "mp4"
      outtmpl := outputTemplate env
      quiet := true
      noplaylist := true
      cookiefile := cf
      playerClientAndroidWeb := true }
  else
    { format := "best"
      merge_output_format := none
      outtmpl := outputTemplate env
      quiet := true
      noplaylist := true
      cookiefile := cf
      playerClientAndroidWeb := false }

/-- The options of the last-resort retry: the same dictionary with
`ydl_opts['format'] = 'worst'` (line 110). -/
def opts2 (env : DownloadEnv) : YdlOpts :=
  { opts1 env with format := "worst" }

/-- The disk after the cookie file has been materialized (lines 38-46). -/
def cookieDisk (env : DownloadEnv) (d : Disk) : Disk :=
  if cookieTruthy env.cookies then
    d ++ [{ path := env.cookiePath, size := (env.cookies.getD "").length }]
  else d

/-- Result of the download-attempt phase (lines 78-117): the candidate
`downloaded_filepath`, the disk, the attempt events, and whether an
exception escaped to the outer handler (the `raise second_error`). -/
structure AttemptOut where
  cand : Option String
  disk : Disk
  events : List FetchEvent
  raised : Bool
deriving Repr

/-- The candidate `downloaded_filepath` selected by the attempt phase
(lines 78-117): in the FFmpeg branch, the expected merged .mp4 when it
exists, else `prepare_filename(info)` (lines 86-92); otherwise
`prepare_filename(info)` when it exists, else the first glob match
(lines 93-103); after a first-attempt exception, None in the FFmpeg
branch, and in the retry branch the retry's `prepare_filename(info)`
with no existence check (lines 105-117). -/
def attemptCand (env : DownloadEnv) (d : Disk) : Option String :=
  let d2 := d ++ env.call1.created
  match env.call1.result with
  | .ok name =>
    if env.ffmpeg then
      if Disk.hasPath d2 (expectedMerged env) then some (expectedMerged env)
      else some name
    else
      if Disk.hasPath d2 name then some name
      else
        match d2.find? (fun f => f.path.startsWith (globMatchBase env)) with
        | some f => some f.path
        | none => none
  | .error _ =>
    if env.ffmpeg then none
    else
      match env.call2.result with
      | .ok name2 => some name2
      | .error _ => none

/-- The disk after the attempt phase: the first call's files, plus the
retry's files when the retry ran (first call raised, no FFmpeg). -/
def attemptDisk (env : DownloadEnv) (d : Disk) : Disk :=
  match env.call1.result with
  | .ok _ => d ++ env.call1.created
  | .error _ =>
    if env.ffmpeg then d ++ env.call1.created
    else d ++ env.call1.created ++ env.call2.created

/-- The download attempts issued: always the first, plus the 'worst'
retry when the first raised and FFmpeg is absent (lines 105-117). -/
def attemptEvents (env : DownloadEnv) : List FetchEvent :=
  match env.call1.result with
  | .ok _ => [.attempt (opts1 env)]
  | .error _ =>
    if env.ffmpeg then [.attempt (opts1 env)]
    else [.attempt (opts1 env), .attempt (opts2 env)]

/-- Whether an exception escapes the attempt phase to the outer handler:
only the `raise second_error` of a failed retry (line 117). -/
def attemptRaised (env : DownloadEnv) : Bool :=
  match env.call1.result with
  | .ok _ => false
  | .error _ =>
    if env.ffmpeg then false
    else
      match env.call2.result with
      | .ok _ => false
      | .error _ => true

/-- The download-attempt phase of `download_video_from_url`
(lines 78-117), assembled from its components. -/
def attemptPhase (env : DownloadEnv) (d : Disk) : AttemptOut :=
  { cand := attemptCand env d
    disk := attemptDisk env d
    events := attemptEvents env
    raised := attemptRaised env }

/-- Outcome of `download_video_from_url`: the returned value (`none` is the
absence signal), the final disk, and the event trace. -/
structure FetchOutcome where
  result : Option String
  disk : Disk
  events : List FetchEvent
deriving Repr

/-- Final validation (lines 119-127) together with the outer exception
handler (lines 129-132, which turns an escaped exception into None): a
missing candidate, a candidate that does not exist, or a zero-byte
candidate yields None; a zero-byte candidate is removed first. -/
def validatePhase (a : AttemptOut) : FetchOutcome :=
  if a.raised then { result := none, disk := a.disk, events := a.events }
  else
    match a.cand with
    | none => { result := none, disk := a.disk, events := a.events }
    | some p =>
      if Disk.hasPath a.disk p then
        if Disk.getsize a.disk p = 0 then
          { result := none, disk := Disk.remove a.disk p,
            events := a.events ++ [.removeFile p] }
        else { result := some p, disk := a.disk, events := a.events }
      else { result := none, disk := a.disk, events := a.events }

/-- The `finally` block (lines 134-140): remove the temporary cookie file
when it was created and still exists; a failure of that removal is
swallowed. -/
def cookieCleanup (env : DownloadEnv) (o : FetchOutcome) : FetchOutcome :=
  if cookieTruthy env.cookies && Disk.hasPath o.disk env.cookiePath then
    { result := o.result, disk := Disk.remove o.disk env.cookiePath,
      events := o.events ++ [.removeCookie env.cookiePath] }
  else o

/-- Shallow embedding of `download_video_from_url` (lines 18-140): cookie
materialization, the attempt phase, final validation with the outer
exception handler, and the `finally` block deleting the temporary cookie
file. -/
def download_video_from_url (env : DownloadEnv) (d0 : Disk) : FetchOutcome :=
  cookieCleanup env (validatePhase (attemptPhase env (cookieDisk env d0)))

/-- The download attempts recorded in a fetch trace, in order. -/
def fetchAttempts (evs : List FetchEvent) : List YdlOpts :=
  evs.filterMap (fun e => match e with
    | .attempt o => some o
    | _ => none)

/-! Inference client, title extractor, search client: `analyze_video`,
`extract_title`, `search_for_title` (src/video_analyzer.py lines 142-293). -/

/-- One result entry from the Tavily search. -/
structure SearchDoc where
  url : String
  content : String
deriving DecidableEq, Repr

/-- The `search_info` dictionary: its `status` field is the constructor. -/
inductive SearchInfo where
  | success (results : List SearchDoc)
  | no_results (message : String)
  | skipped (message : String)
  | error (message : String)
deriving DecidableEq, Repr

/-- The dictionary returned by `analyze_video`: its `status` field is the
constructor. -/
inductive AnalysisResult where
  | error (message : String)
  | success (analysis : String) (extracted_title : String) (search_info : SearchInfo)
deriving DecidableEq, Repr

/-- The `status` field of the result dictionary. -/
def AnalysisResult.status : AnalysisResult → String
  | .error _ => "error"
  | .success _ _ _ => "success"

/-- The `message` field of the result dictionary (only error results carry
one; the endpoint reads it only on the error branch). -/
def AnalysisResult.messageOf : AnalysisResult → String
  | .error m => m
  | .success _ _ _ => ""

/-- Observable side effects of the inference/extraction/search stages. -/
inductive GenEvent where
  | upload (path : String)
  | sleep (seconds : Nat)
  | getFile (name : String)
  /-- the analysis `generate_content` request, with its `timeout` option. -/
  | generate (timeout : Nat)
  /-- the title-extraction `generate_content` request, with its `timeout`
  option. -/
  | titleRequest (timeout : Nat)
  | searchInvoke (query : String)
  /-- a `genai.delete_file` request and whether it succeeded. -/
  | deleteFile (name : String) (succeeded : Bool)
deriving DecidableEq, Repr

def GenEvent.isSleep : GenEvent → Bool
  | .sleep _ => true
  | _ => false

def GenEvent.isDelete : GenEvent → Bool
  | .deleteFile _ _ => true
  | _ => false

def GenEvent.isSearch : GenEvent → Bool
  | .searchInvoke _ => true
  | _ => false

/-- Python `s.strip(chars)` for a character class: drop matching characters
from both ends. -/
def pyStripChars (p : Char → Bool) (s : String) : String :=
  String.mk (((s.toList.dropWhile p).reverse.dropWhile p).reverse)

/-- `response.text.strip().strip('*"')` (line 161). -/
def cleanTitle (raw : String) : String :=
  pyStripChars (fun c => c == '*' || c == '"') (pyStripChars Char.isWhitespace raw)

/-- Shallow embedding of `extract_title` (lines 142-165): one bounded
generation request (timeout 60); on success the stripped response text, on
any exception the sentinel. -/
def extract_title (titleGen : Except Exn String) : List GenEvent × String :=
  match titleGen with
  | .ok raw => ([.titleRequest 60], cleanTitle raw)
  | .error _ => ([.titleRequest 60], "Unknown Title")

/-- Environment of the search stage: whether `TAVILY_API_KEY` is set, and
the oracle for `tavily_search.invoke` — the `results` field of the returned
dictionary (`none` models an absent key, defaulted to `[]`), or a raised
exception (which also covers a failing `TavilySearch` constructor). -/
structure SearchEnv where
  tavilyKey : Bool
  invoke : Except Exn (Option (List SearchDoc))
deriving Repr

/-- Shallow embedding of `search_for_title` (lines 167-198). -/
def search_for_title (senv : SearchEnv) (title : String) : List GenEvent × SearchInfo :=
  if senv.tavilyKey then
    let query := "where to legally watch " ++ title
    match senv.invoke with
    | .ok data =>
      let search_docs := data.getD []
      if search_docs = [] then
        ([.searchInvoke query],
         .no_results ("No search results found for '" ++ query ++ "'."))
      else
        ([.searchInvoke query], .success search_docs)
    | .error e =>
      ([.searchInvoke query],
       .error ("An unexpected error occurred during Tavily search: " ++ e.msg))
  else
    ([], .error "TAVILY_API_KEY environment variable not set. Cannot perform search.")

/-- The uploaded remote file as first observed: its remote name and the
initial `state.name`. -/
structure UploadInfo where
  name : String
  state : String
deriving DecidableEq, Repr

/-- Environment of one `analyze_video` run: whether `GOOGLE_API_KEY` is
set, the disk, the local path argument, and the oracles for the genai
calls: the upload, the successive `genai.get_file` state names, the
`response.text` of the analysis request, the `response.text` of the
title request, the search environment, and whether the final
`genai.delete_file` raises. -/
structure AnalyzeEnv where
  googleKey : Bool
  disk : Disk
  videoPath : String
  upload : Except Exn UploadInfo
  polls : List String
  generate : Except Exn String
  titleGen : Except Exn String
  searchEnv : SearchEnv
  deleteFails : Bool

/-- The polling loop (lines 235-238): while the state is `PROCESSING`,
sleep 10 seconds and re-fetch the file.  The oracle supplies the states
returned by successive `get_file` calls; if it is exhausted while the
state is still `PROCESSING` the loop does not terminate within the trace,
modelled as `none`. -/
def pollLoop (name : String) (s : String) (polls : List String) :
    List GenEvent × Option String :=
  if s = "PROCESSING" then
    match polls with
    | [] => ([.sleep 10], none)
    | s' :: rest =>
      let r := pollLoop name s' rest
      (.sleep 10 :: .getFile name :: r.1, r.2)
  else ([], some s)

/-- Result of the `try` block of `analyze_video` (lines 214-284): the
events, the captured `video_file_name`, and the result (`none` models
divergence in the polling loop). -/
structure TryOut where
  events : List GenEvent
  handle : Option String
  result : Option AnalysisResult
deriving Repr

/-- The `try` block of `analyze_video` (lines 214-284). -/
def analyzeTry (env : AnalyzeEnv) : TryOut :=
  if Disk.hasPath env.disk env.videoPath then
    if Disk.getsize env.disk env.videoPath = 0 then
      { events := [], handle := none,
        result := some (.error ("Error: Video file is empty: " ++ env.videoPath)) }
    else
      match env.upload with
      | .error e =>
        { events := [.upload env.videoPath], handle := none,
          result := some (.error ("An unexpected error occurred during analysis: " ++ e.msg)) }
      | .ok vf =>
        let pl := pollLoop vf.name vf.state env.polls
        let evs0 := GenEvent.upload env.videoPath :: pl.1
        match pl.2 with
        | none => { events := evs0, handle := some vf.name, result := none }
        | some st =>
          if st = "FAILED" then
            { events := evs0, handle := some vf.name,
              result := some (.error "Error: File upload failed. State: FAILED") }
          else if st ≠ "ACTIVE" then
            { events := evs0, handle := some vf.name,
              result := some (.error ("Error: File is not active. State: " ++ st)) }
          else
            match env.generate with
            | .error e =>
              { events := evs0 ++ [.generate 600], handle := some vf.name,
                result := some (.error ("An unexpected error occurred during analysis: " ++ e.msg)) }
            | .ok analysis_text =>
              let et := extract_title env.titleGen
              let title := et.2
              let sr :=
                if title ≠ "" ∧ title ≠ "Unknown Title" then
                  search_for_title env.searchEnv title
                else
                  ([], SearchInfo.skipped "Unknown title")
              { events := (evs0 ++ [.generate 600]) ++ et.1 ++ sr.1,
                handle := some vf.name,
                result := some (.success analysis_text title sr.2) }
  else
    { events := [], handle := none,
      result := some (.error ("Error: Video file not found at path: " ++ env.videoPath)) }

/-- Outcome of `analyze_video`: the returned dictionary (`none` models
divergence in the polling loop, in which case the `finally` block never
runs) and the event trace. -/
structure AnalyzeOut where
  result : Option AnalysisResult
  events : List GenEvent
deriving Repr

/-- Shallow embedding of `analyze_video` (lines 200-293): the credential
check, the `try` block, and the `finally` block which issues one
`genai.delete_file` request when `video_file_name` was captured,
swallowing a deletion failure. -/
def analyze_video (env : AnalyzeEnv) : AnalyzeOut :=
  if env.googleKey then
    let t := analyzeTry env
    match t.result with
    | none => { result := none, events := t.events }
    | some r =>
      match t.handle with
      | some n =>
        { result := some r, events := t.events ++ [.deleteFile n (!env.deleteFails)] }
      | none => { result := some r, events := t.events }
  else
    { result := some (.error "Error: GOOGLE_API_KEY environment variable not set."),
      events := [] }

/-- The title the pipeline extracts in a given environment. -/
def extractedTitle (env : AnalyzeEnv) : String :=
  (extract_title env.titleGen).2

/-- Whether the upload call returned normally. -/
def exceptOk : Except Exn UploadInfo → Bool
  | .ok _ => true
  | .error _ => false

/-- Whether a remote handle is captured in a given environment: the
credential is set, the local file exists and is non-empty, and the upload
call returns. -/
def uploadCaptured (env : AnalyzeEnv) : Bool :=
  env.googleKey && Disk.hasPath env.disk env.videoPath
    && decide (Disk.getsize env.disk env.videoPath ≠ 0)
    && exceptOk env.upload

/-! HTTP boundary: `analyze_video_endpoint` (src/fastapi_app.py, lines 57-123). -/

/-- An HTTP response of the endpoint: the analysis dictionary with
status 200, or an `HTTPException` rendered as `{detail}` with a status
code. -/
inductive HttpResponse where
  | ok (body : AnalysisResult)
  | err (code : Nat) (detail : String)
deriving DecidableEq, Repr

/-- Result of an awaited `run_in_threadpool` call: the value, or a raised
exception. -/
inductive CallResult (α : Type) where
  | ok (a : α)
  | exn (e : Exn)
deriving Repr

/-- The `finally` block of the endpoint (lines 115-123): remove the local
file when the path was captured and the file exists. -/
def cleanupLocal (d : Disk) (p : String) : Disk :=
  if Disk.hasPath d p then Disk.remove d p else d

/-- Outcome of one endpoint invocation: the response (`none` models a run
that never completes) and the final disk. -/
structure EndpointOut where
  response : Option HttpResponse
  disk : Disk
deriving Repr

/-- Shallow embedding of `analyze_video_endpoint` (lines 57-123) over the
outcomes of the two awaited calls.  `analyzeCall = .ok none` with a path
models a run whose analysis stage diverges (its `await` never returns, so
neither does the endpoint and the `finally` block never runs). -/
def analyze_video_endpoint (url : String) (fetchCall : CallResult (Option String))
    (diskAfterFetch : Disk) (analyzeCall : CallResult (Option AnalysisResult)) :
    EndpointOut :=
  match fetchCall with
  | .exn e =>
    -- generic handler (lines 108-114); local path never captured, no cleanup
    { response := some (.err 500 ("An unexpected server error occurred: " ++ e.msg)),
      disk := diskAfterFetch }
  | .ok none =>
    -- lines 75-80: fetch failure is a client error; no local path to clean
    { response := some (.err 400 ("Failed to download video from URL: " ++ url ++
        ". The URL may be invalid or unsupported.")),
      disk := diskAfterFetch }
  | .ok (some p) =>
    match analyzeCall with
    | .exn e =>
      { response := some (.err 500 ("An unexpected server error occurred: " ++ e.msg)),
        disk := cleanupLocal diskAfterFetch p }
    | .ok none => { response := none, disk := diskAfterFetch }
    | .ok (some r) =>
      if r.status = "error" then
        { response := some (.err 500 ("Analysis Error: " ++ r.messageOf)),
          disk := cleanupLocal diskAfterFetch p }
      else
        { response := some (.ok r), disk := cleanupLocal diskAfterFetch p }

/-- One full pipeline run at the HTTP boundary: the fetch stage, then —
when a file was produced — the analysis stage on the fetched path, then
the endpoint logic.  `tmpl` supplies the analysis-stage oracles; its disk
and path fields are overridden with the fetch output. -/
def withFetched (tmpl : AnalyzeEnv) (d : Disk) (p : String) : AnalyzeEnv :=
  { tmpl with disk := d, videoPath := p }

def pipelineRun (url : String) (denv : DownloadEnv) (d0 : Disk) (tmpl : AnalyzeEnv) :
    EndpointOut :=
  let fo := download_video_from_url denv d0
  match fo.result with
  | none => analyze_video_endpoint url (.ok none) fo.disk (.ok none)
  | some p =>
    analyze_video_endpoint url (.ok (some p)) fo.disk
      (.ok (analyze_video (withFetched tmpl fo.disk p)).result)

/-! Derived definitions used by the statements below. -/

def sleepCount (evs : List GenEvent) : Nat := (evs.filter GenEvent.isSleep).length

/-- Shape invariant of inference-stage events: every sleep is 10 seconds,
every analysis request carries timeout 600, every title request timeout 60. -/
def wfEvent : GenEvent → Prop
  | .sleep t => t = 10
  | .generate t => t = 600
  | .titleRequest t => t = 60
  | _ => True

/-- Shape invariant of the events of the `try` block: well-formed, and no
deletion request (the only deletion request is issued by `finally`). -/
def preDeleteEvent : GenEvent → Prop
  | .sleep t => t = 10
  | .generate t => t = 600
  | .titleRequest t => t = 60
  | .deleteFile _ _ => False
  | _ => True

/-- The search branch taken on the success path (lines 263-271). -/
def searchOutcome (env : AnalyzeEnv) : List GenEvent × SearchInfo :=
  if extractedTitle env ≠ "" ∧ extractedTitle env ≠ "Unknown Title" then
    search_for_title env.searchEnv (extractedTitle env)
  else ([], SearchInfo.skipped "Unknown title")

def deleteCount (evs : List GenEvent) : Nat := (evs.filter GenEvent.isDelete).length

/-- Counterexample input for claim C4: no FFmpeg, both attempts raise, the first attempt leaves a partial file. -/
def cexFetchEnv : DownloadEnv :=
  { tempDir := "/tmp", uuidBase := "u4", ffmpeg := false,
    cookies := none, cookiePath := "/tmp/c4.txt",
    call1 := { created := [{ path := "/tmp/u4.f616.part", size := 70000 }],
               result := .error { msg := "HTTP Error 403: Forbidden" } },
    call2 := { created := [], result := .error { msg := "HTTP Error 403: Forbidden" } } }

/-- Counterexample fetch input for claim C1: FFmpeg present, the single attempt raises after writing a partial file. -/
def cexPipeFetchEnv : DownloadEnv :=
  { tempDir := "/tmp", uuidBase := "u1", ffmpeg := true,
    cookies := none, cookiePath := "/tmp/c1.txt",
    call1 := { created := [{ path := "/tmp/u1.f401.part", size := 12000 }],
               result := .error { msg := "unable to continue download" } },
    call2 := { created := [], result := .error { msg := "unused" } } }

def cexTmplEnv : AnalyzeEnv :=
  { googleKey := false, disk := [], videoPath := "",
    upload := .error { msg := "unused" }, polls := [],
    generate := .error { msg := "unused" }, titleGen := .error { msg := "unused" },
    searchEnv := { tavilyKey := false, invoke := .error { msg := "unused" } },
    deleteFails := false }

/-! Concrete environments used by the counterexamples and witnesses. -/

/-- A run in which every stage succeeds. -/
def wAnalyzeEnv : AnalyzeEnv :=
  { googleKey := true, disk := [{ path := "/tmp/w.mp4", size := 5242880 }],
    videoPath := "/tmp/w.mp4",
    upload := .ok { name := "files/w1", state := "PROCESSING" },
    polls := ["PROCESSING", "ACTIVE"],
    generate := .ok "The clip is from the film Dune (2021).",
    titleGen := .ok "Dune (2021)",
    searchEnv :=
      { tavilyKey := true,
        invoke := .ok (some [{ url := "https://example.com/dune", content := "watch here" }]) },
    deleteFails := false }

/-- A run whose title extraction yields the empty string. -/
def wEmptyTitleEnv : AnalyzeEnv := { wAnalyzeEnv with titleGen := .ok "" }

/-- A run whose title extraction raises, producing the sentinel. -/
def wSentinelEnv : AnalyzeEnv := { wAnalyzeEnv with titleGen := .error { msg := "timeout" } }

/-- A run whose remote file ends in state FAILED. -/
def wFailedEnv : AnalyzeEnv := { wAnalyzeEnv with polls := ["FAILED"] }

/-- A successful fetch with FFmpeg present and cookies configured. -/
def wFetchEnv : DownloadEnv :=
  { tempDir := "/tmp", uuidBase := "w1", ffmpeg := true,
    cookies := some "session-cookie-data", cookiePath := "/tmp/wcookies.txt",
    call1 := { created := [{ path := "/tmp/w1.mp4", size := 5242880 }],
               result := .ok "/tmp/w1.webm" },
    call2 := { created := [], result := .error { msg := "unused" } } }

/-- A fetch without FFmpeg whose both attempts raise. -/
def wFailFetchEnv : DownloadEnv :=
  { tempDir := "/tmp", uuidBase := "wf", ffmpeg := false,
    cookies := some "session-cookie-data", cookiePath := "/tmp/wfcookies.txt",
    call1 := { created := [], result := .error { msg := "HTTP Error 403" } },
    call2 := { created := [], result := .error { msg := "HTTP Error 403" } } }

/-- A fetch without FFmpeg whose attempt returns but produces no file: the
prepared path does not exist and the glob search finds nothing, so
`downloaded_filepath` stays None (an empty result). -/
def wNoFileFetchEnv : DownloadEnv :=
  { tempDir := "/tmp", uuidBase := "wn", ffmpeg := false,
    cookies := none, cookiePath := "/tmp/wncookies.txt",
    call1 := { created := [], result := .ok "/tmp/wn.mp4" },
    call2 := { created := [], result := .error { msg := "unused" } } }

/-! Helper lemmas about the fetch stage. -/

theorem Disk.hasPath_remove_self (d : Disk) (p : String) :
    Disk.hasPath (Disk.remove d p) p = false := by
  simp only [Disk.hasPath, Disk.remove, Bool.eq_false_iff, ne_eq, List.any_eq_true,
    List.mem_filter, bne_iff_ne, beq_iff_eq]
  rintro ⟨f, ⟨_, hne⟩, he⟩
  exact hne he

theorem Disk.hasPath_remove_le (d : Disk) (p q : String)
    (h : Disk.hasPath (Disk.remove d q) p = true) : Disk.hasPath d p = true := by
  simp only [Disk.hasPath, Disk.remove, List.any_eq_true, List.mem_filter] at h ⊢
  obtain ⟨f, ⟨hf, _⟩, he⟩ := h
  exact ⟨f, hf, he⟩

@[simp] theorem fetchAttempts_append (l1 l2 : List FetchEvent) :
    fetchAttempts (l1 ++ l2) = fetchAttempts l1 ++ fetchAttempts l2 := by
  simp [fetchAttempts, List.filterMap_append]

@[simp] theorem fetchAttempts_removeFile (p : String) :
    fetchAttempts [FetchEvent.removeFile p] = [] := rfl

@[simp] theorem fetchAttempts_removeCookie (p : String) :
    fetchAttempts [FetchEvent.removeCookie p] = [] := rfl

theorem validatePhase_attempts (a : AttemptOut) :
    fetchAttempts (validatePhase a).events = fetchAttempts a.events := by
  unfold validatePhase
  split <;> (try split) <;> (try split) <;> (try split) <;> simp

theorem cookieCleanup_attempts (env : DownloadEnv) (o : FetchOutcome) :
    fetchAttempts (cookieCleanup env o).events = fetchAttempts o.events := by
  unfold cookieCleanup
  split <;> simp

theorem cookieCleanup_result (env : DownloadEnv) (o : FetchOutcome) :
    (cookieCleanup env o).result = o.result := by
  unfold cookieCleanup
  split <;> simp

theorem download_attempts_eq (env : DownloadEnv) (d0 : Disk) :
    fetchAttempts (download_video_from_url env d0).events =
    fetchAttempts (attemptEvents env) := by
  rw [download_video_from_url, cookieCleanup_attempts, validatePhase_attempts]
  rfl

theorem attemptEvents_ffmpeg (env : DownloadEnv) (h : env.ffmpeg = true) :
    attemptEvents env = [.attempt (opts1 env)] := by
  unfold attemptEvents
  split <;> simp [h]

theorem attemptEvents_ok (env : DownloadEnv) (name : String)
    (h : env.call1.result = .ok name) :
    attemptEvents env = [.attempt (opts1 env)] := by
  unfold attemptEvents
  rw [h]

theorem attemptEvents_retry (env : DownloadEnv) (e : Exn)
    (hf : env.ffmpeg = false) (h : env.call1.result = .error e) :
    attemptEvents env = [.attempt (opts1 env), .attempt (opts2 env)] := by
  unfold attemptEvents
  rw [h]
  simp [hf]

theorem validatePhase_result_none_of_cand (a : AttemptOut) (h : a.cand = none) :
    (validatePhase a).result = none := by
  unfold validatePhase
  split <;> simp [h]

theorem validatePhase_result_none_of_raised (a : AttemptOut) (h : a.raised = true) :
    (validatePhase a).result = none := by
  unfold validatePhase
  simp [h]

theorem cookieCleanup_mem (env : DownloadEnv) (o : FetchOutcome) (x : FetchEvent)
    (h : x ∈ o.events) : x ∈ (cookieCleanup env o).events := by
  unfold cookieCleanup
  split <;> simp [h]

theorem cookieCleanup_hasPath_false (env : DownloadEnv) (o : FetchOutcome) (p : String)
    (h : Disk.hasPath o.disk p = false) :
    Disk.hasPath (cookieCleanup env o).disk p = false := by
  unfold cookieCleanup
  split
  · cases hq : Disk.hasPath (Disk.remove o.disk env.cookiePath) p
    · rfl
    · exact absurd (Disk.hasPath_remove_le _ _ _ hq) (by simp [h])
  · exact h

theorem cookieCleanup_cookie_absent (env : DownloadEnv) (o : FetchOutcome)
    (ht : cookieTruthy env.cookies = true) :
    Disk.hasPath (cookieCleanup env o).disk env.cookiePath = false := by
  unfold cookieCleanup
  split
  · exact Disk.hasPath_remove_self _ _
  · rename_i hcond
    simp only [ht, Bool.true_and] at hcond
    simpa using hcond

theorem attemptEvents_no_removeCookie (env : DownloadEnv) (q : String) :
    FetchEvent.removeCookie q ∉ attemptEvents env := by
  unfold attemptEvents
  split <;> (try split) <;> simp

theorem validatePhase_no_removeCookie (a : AttemptOut) (q : String)
    (h : FetchEvent.removeCookie q ∉ a.events) :
    FetchEvent.removeCookie q ∉ (validatePhase a).events := by
  unfold validatePhase
  split <;> (try split) <;> (try split) <;> (try split) <;> simp_all

theorem cleanupLocal_absent (d : Disk) (p : String) :
    Disk.hasPath (cleanupLocal d p) p = false := by
  unfold cleanupLocal
  split
  · exact Disk.hasPath_remove_self _ _
  · rename_i h
    simpa using h

theorem pollLoop_exit_ne (name : String) (polls : List String) : ∀ s t,
    (pollLoop name s polls).2 = some t → t ≠ "PROCESSING" := by
  induction polls with
  | nil =>
    intro s t h
    unfold pollLoop at h
    split at h
    · simp at h
    · rename_i hs
      simp only [Option.some_inj] at h
      subst h
      exact hs
  | cons s' rest ih =>
    intro s t h
    unfold pollLoop at h
    split at h
    · exact ih s' t h
    · rename_i hs
      simp only [Option.some_inj] at h
      subst h
      exact hs

theorem pollLoop_isSome_iff (name : String) (polls : List String) : ∀ s,
    (pollLoop name s polls).2.isSome = true ↔
      (s ≠ "PROCESSING" ∨ ∃ x ∈ polls, x ≠ "PROCESSING") := by
  induction polls with
  | nil =>
    intro s
    unfold pollLoop
    split <;> simp_all
  | cons s' rest ih =>
    intro s
    unfold pollLoop
    split
    · rename_i hs
      rw [show (GenEvent.sleep 10 :: GenEvent.getFile name :: (pollLoop name s' rest).1,
          (pollLoop name s' rest).2).2 = (pollLoop name s' rest).2 from rfl]
      rw [ih s']
      subst hs
      simp only [ne_eq, not_true_eq_false, false_or, List.mem_cons]
      constructor
      · rintro (h | ⟨x, hx, hne⟩)
        · exact ⟨s', Or.inl rfl, h⟩
        · exact ⟨x, Or.inr hx, hne⟩
      · rintro ⟨x, hx | hx, hne⟩
        · subst hx; exact Or.inl hne
        · exact Or.inr ⟨x, hx, hne⟩
    · rename_i hs
      simp [hs]

theorem pollLoop_all_processing (name : String) (n : Nat) :
    (pollLoop name "PROCESSING" (List.replicate n "PROCESSING")).2 = none ∧
    sleepCount (pollLoop name "PROCESSING" (List.replicate n "PROCESSING")).1 = n + 1 := by
  induction n with
  | zero => exact ⟨rfl, rfl⟩
  | succ k ih =>
    rw [List.replicate_succ]
    unfold pollLoop
    simp only [if_pos rfl]
    refine ⟨ih.1, ?_⟩
    simp only [sleepCount, List.filter] at ih ⊢
    simp only [GenEvent.isSleep, List.length_cons]
    rw [ih.2]

theorem pollLoop_events_shape (name : String) (polls : List String) : ∀ s e,
    e ∈ (pollLoop name s polls).1 →
      e = GenEvent.sleep 10 ∨ ∃ m, e = GenEvent.getFile m := by
  induction polls with
  | nil =>
    intro s e h
    unfold pollLoop at h
    split at h <;> simp_all
  | cons s' rest ih =>
    intro s e h
    unfold pollLoop at h
    split at h
    · simp only [List.mem_cons] at h
      rcases h with h | h | h
      · exact Or.inl h
      · exact Or.inr ⟨name, h⟩
      · exact ih s' e h
    · simp at h



theorem preDeleteEvent_wf (e : GenEvent) (h : preDeleteEvent e) : wfEvent e := by
  cases e <;> simp_all [preDeleteEvent, wfEvent]

theorem preDeleteEvent_not_delete (e : GenEvent) (h : preDeleteEvent e) :
    GenEvent.isDelete e = false := by
  cases e <;> simp_all [preDeleteEvent, GenEvent.isDelete]

theorem search_events_shape (senv : SearchEnv) (title : String) :
    ∀ e ∈ (search_for_title senv title).1, ∃ q, e = GenEvent.searchInvoke q := by
  intro e he
  unfold search_for_title at he
  split at he
  · split at he
    · dsimp only at he
      split at he <;> simp_all
    · simp_all
  · simp_all

theorem extract_title_events (g : Except Exn String) :
    (extract_title g).1 = [GenEvent.titleRequest 60] := by
  unfold extract_title
  split <;> rfl
theorem analyzeTry_events_shape (env : AnalyzeEnv) :
    ∀ e ∈ (analyzeTry env).events, preDeleteEvent e := by
  intro e he
  unfold analyzeTry at he
  by_cases h1 : Disk.hasPath env.disk env.videoPath
  case neg => simp [h1] at he
  simp only [h1, if_true] at he
  by_cases h2 : Disk.getsize env.disk env.videoPath = 0
  case pos => simp [h2] at he
  simp only [h2, if_false] at he
  cases hu : env.upload with
  | error ex => rw [hu] at he; simp at he; subst he; trivial
  | ok vf =>
    rw [hu] at he
    dsimp only at he
    have hpoll : ∀ x, x ∈ (pollLoop vf.name vf.state env.polls).1 → preDeleteEvent x := by
      intro x hx
      rcases pollLoop_events_shape vf.name env.polls vf.state x hx with h | ⟨m, h⟩ <;>
        subst h <;> trivial
    cases hpl : (pollLoop vf.name vf.state env.polls).2 with
    | none =>
      rw [hpl] at he
      simp only [List.mem_cons] at he
      rcases he with he | he
      · subst he; trivial
      · exact hpoll e he
    | some st =>
      rw [hpl] at he
      dsimp only at he
      by_cases hF : st = "FAILED"
      · simp only [hF, if_true, List.mem_cons] at he
        rcases he with he | he
        · subst he; trivial
        · exact hpoll e he
      · simp only [hF, if_false] at he
        by_cases hA : st ≠ "ACTIVE"
        · simp only [if_pos hA, List.mem_cons] at he
          rcases he with he | he
          · subst he; trivial
          · exact hpoll e he
        · simp only [if_neg hA] at he
          cases hg : env.generate with
          | error ex =>
            rw [hg] at he
            simp only [List.mem_append, List.mem_cons, List.not_mem_nil, or_false,
              or_assoc] at he
            rcases he with he | he | he
            · subst he; trivial
            · exact hpoll e he
            · subst he; trivial
          | ok txt =>
            rw [hg] at he
            dsimp only at he
            rw [extract_title_events] at he
            simp only [List.mem_append, List.mem_cons, List.not_mem_nil, or_false,
              or_assoc] at he
            rcases he with he | he | he | he | he
            · subst he; trivial
            · exact hpoll e he
            · subst he; trivial
            · subst he; trivial
            · revert he
              split
              · intro he
                rcases search_events_shape env.searchEnv _ e he with ⟨q, hq⟩
                subst hq; trivial
              · intro he
                simp at he

theorem analyze_events_shape (env : AnalyzeEnv) :
    ∀ e ∈ (analyze_video env).events, wfEvent e := by
  intro e he
  unfold analyze_video at he
  by_cases hk : env.googleKey
  case neg => simp [hk] at he
  simp only [hk, if_true] at he
  cases hres : (analyzeTry env).result with
  | none =>
    rw [hres] at he
    exact preDeleteEvent_wf e (analyzeTry_events_shape env e he)
  | some r =>
    rw [hres] at he
    cases hh : (analyzeTry env).handle with
    | some n =>
      rw [hh] at he
      simp only [List.mem_append, List.mem_singleton] at he
      rcases he with he | he
      · exact preDeleteEvent_wf e (analyzeTry_events_shape env e he)
      · subst he; trivial
    | none =>
      rw [hh] at he
      exact preDeleteEvent_wf e (analyzeTry_events_shape env e he)



theorem analyzeTry_not_found (env : AnalyzeEnv)
    (h1 : Disk.hasPath env.disk env.videoPath = false) :
    analyzeTry env =
      { events := [],
        handle := none,
        result := some (.error ("Error: Video file not found at path: " ++ env.videoPath)) } := by
  unfold analyzeTry
  simp [h1]

theorem analyzeTry_empty (env : AnalyzeEnv)
    (h1 : Disk.hasPath env.disk env.videoPath = true)
    (h2 : Disk.getsize env.disk env.videoPath = 0) :
    analyzeTry env =
      { events := [],
        handle := none,
        result := some (.error ("Error: Video file is empty: " ++ env.videoPath)) } := by
  unfold analyzeTry
  simp [h1, h2]

theorem analyzeTry_upload_err (env : AnalyzeEnv) (e : Exn)
    (h1 : Disk.hasPath env.disk env.videoPath = true)
    (h2 : Disk.getsize env.disk env.videoPath ≠ 0)
    (hu : env.upload = .error e) :
    analyzeTry env =
      { events := [GenEvent.upload env.videoPath],
        handle := none,
        result := some (.error ("An unexpected error occurred during analysis: " ++ e.msg)) } := by
  unfold analyzeTry
  simp [h1, h2, hu]

theorem analyzeTry_poll_none (env : AnalyzeEnv) (vf : UploadInfo)
    (h1 : Disk.hasPath env.disk env.videoPath = true)
    (h2 : Disk.getsize env.disk env.videoPath ≠ 0)
    (hu : env.upload = .ok vf)
    (hpl : (pollLoop vf.name vf.state env.polls).2 = none) :
    analyzeTry env =
      { events := GenEvent.upload env.videoPath :: (pollLoop vf.name vf.state env.polls).1,
        handle := some vf.name,
        result := none } := by
  unfold analyzeTry
  simp [h1, h2, hu, hpl]

theorem analyzeTry_failed (env : AnalyzeEnv) (vf : UploadInfo)
    (h1 : Disk.hasPath env.disk env.videoPath = true)
    (h2 : Disk.getsize env.disk env.videoPath ≠ 0)
    (hu : env.upload = .ok vf)
    (hpl : (pollLoop vf.name vf.state env.polls).2 = some "FAILED") :
    analyzeTry env =
      { events := GenEvent.upload env.videoPath :: (pollLoop vf.name vf.state env.polls).1,
        handle := some vf.name,
        result := some (.error "Error: File upload failed. State: FAILED") } := by
  unfold analyzeTry
  simp [h1, h2, hu, hpl]

theorem analyzeTry_not_active (env : AnalyzeEnv) (vf : UploadInfo) (st : String)
    (h1 : Disk.hasPath env.disk env.videoPath = true)
    (h2 : Disk.getsize env.disk env.videoPath ≠ 0)
    (hu : env.upload = .ok vf)
    (hpl : (pollLoop vf.name vf.state env.polls).2 = some st)
    (hF : st ≠ "FAILED") (hA : st ≠ "ACTIVE") :
    analyzeTry env =
      { events := GenEvent.upload env.videoPath :: (pollLoop vf.name vf.state env.polls).1,
        handle := some vf.name,
        result := some (.error ("Error: File is not active. State: " ++ st)) } := by
  unfold analyzeTry
  simp [h1, h2, hu, hpl, hF, hA]

theorem analyzeTry_generate_err (env : AnalyzeEnv) (vf : UploadInfo) (e : Exn)
    (h1 : Disk.hasPath env.disk env.videoPath = true)
    (h2 : Disk.getsize env.disk env.videoPath ≠ 0)
    (hu : env.upload = .ok vf)
    (hpl : (pollLoop vf.name vf.state env.polls).2 = some "ACTIVE")
    (hg : env.generate = .error e) :
    analyzeTry env =
      { events := (GenEvent.upload env.videoPath ::
          (pollLoop vf.name vf.state env.polls).1) ++ [GenEvent.generate 600],
        handle := some vf.name,
        result := some (.error ("An unexpected error occurred during analysis: " ++ e.msg)) } := by
  unfold analyzeTry
  simp [h1, h2, hu, hpl, hg]

theorem analyzeTry_success (env : AnalyzeEnv) (vf : UploadInfo) (txt : String)
    (h1 : Disk.hasPath env.disk env.videoPath = true)
    (h2 : Disk.getsize env.disk env.videoPath ≠ 0)
    (hu : env.upload = .ok vf)
    (hpl : (pollLoop vf.name vf.state env.polls).2 = some "ACTIVE")
    (hg : env.generate = .ok txt) :
    analyzeTry env =
      { events := ((GenEvent.upload env.videoPath ::
          (pollLoop vf.name vf.state env.polls).1) ++ [GenEvent.generate 600])
          ++ [GenEvent.titleRequest 60] ++ (searchOutcome env).1,
        handle := some vf.name,
        result := some (.success txt (extractedTitle env) (searchOutcome env).2) } := by
  unfold analyzeTry
  simp [h1, h2, hu, hpl, hg, searchOutcome, extractedTitle, extract_title_events]



theorem deleteCount_append (a b : List GenEvent) :
    deleteCount (a ++ b) = deleteCount a + deleteCount b := by
  simp [deleteCount, List.filter_append]

theorem deleteCount_zero_of (l : List GenEvent)
    (h : ∀ e ∈ l, GenEvent.isDelete e = false) : deleteCount l = 0 := by
  unfold deleteCount
  rw [List.length_eq_zero, List.filter_eq_nil_iff]
  intro e he
  simp [h e he]

theorem analyzeTry_deleteCount_zero (env : AnalyzeEnv) :
    deleteCount (analyzeTry env).events = 0 :=
  deleteCount_zero_of _ (fun e he =>
    preDeleteEvent_not_delete e (analyzeTry_events_shape env e he))

theorem analyzeTry_handle_some (env : AnalyzeEnv) (vf : UploadInfo)
    (h1 : Disk.hasPath env.disk env.videoPath = true)
    (h2 : Disk.getsize env.disk env.videoPath ≠ 0)
    (hu : env.upload = .ok vf) :
    (analyzeTry env).handle = some vf.name := by
  unfold analyzeTry
  simp only [h1, if_true, h2, if_false, hu]
  split <;> (try split) <;> (try split) <;> (try split) <;> rfl

theorem analyzeTry_handle_some_inv (env : AnalyzeEnv) (n : String)
    (hh : (analyzeTry env).handle = some n) :
    Disk.hasPath env.disk env.videoPath = true ∧
    Disk.getsize env.disk env.videoPath ≠ 0 ∧
    ∃ vf, env.upload = .ok vf ∧ vf.name = n := by
  by_cases h1 : Disk.hasPath env.disk env.videoPath
  · by_cases h2 : Disk.getsize env.disk env.videoPath = 0
    · rw [analyzeTry_empty env h1 h2] at hh
      simp at hh
    · cases hu : env.upload with
      | error e =>
        rw [analyzeTry_upload_err env e h1 h2 hu] at hh
        simp at hh
      | ok vf =>
        rw [analyzeTry_handle_some env vf h1 h2 hu] at hh
        simp only [Option.some_inj] at hh
        exact ⟨h1, h2, vf, rfl, hh⟩
  · rw [Bool.not_eq_true] at h1
    rw [analyzeTry_not_found env h1] at hh
    simp at hh

theorem analyzeTry_df (env : AnalyzeEnv) (b : Bool) :
    analyzeTry { env with deleteFails := b } = analyzeTry env := rfl

/-- Claim C2: for every `analyze_video` run that completes, the number of
`genai.delete_file` requests issued is exactly one when the upload captured a
remote name and zero otherwise; the single deletion request targets the
captured name, comes after every other event, and is issued by the `finally`
block on every exit path; and a failure of that deletion request never
changes the returned result. -/
theorem remote_handle_single_deletion (env : AnalyzeEnv) (r : AnalysisResult)
    (hc : (analyze_video env).result = some r) :
    deleteCount (analyze_video env).events = (if uploadCaptured env = true then 1 else 0) ∧
    (∀ vf, env.upload = .ok vf → uploadCaptured env = true →
      ∃ pre, (analyze_video env).events =
          pre ++ [GenEvent.deleteFile vf.name (!env.deleteFails)] ∧ deleteCount pre = 0) ∧
    (∀ b, (analyze_video { env with deleteFails := b }).result = (analyze_video env).result) := by
  have hdf : ∀ b, (analyze_video { env with deleteFails := b }).result =
      (analyze_video env).result := by
    intro b
    unfold analyze_video
    rw [analyzeTry_df]
    by_cases hk : env.googleKey
    · simp only [hk, if_true]
      cases hres : (analyzeTry env).result <;>
        cases hh : (analyzeTry env).handle <;> simp
    · simp [hk]
  refine ⟨?_, ?_, hdf⟩
  case refine_1 =>
    unfold analyze_video at hc ⊢
    by_cases hk : env.googleKey
    case neg =>
      have hcap : uploadCaptured env = false := by
        unfold uploadCaptured
        simp [hk]
      simp [hk, hcap, deleteCount]
    case pos =>
      simp only [hk, if_true] at hc ⊢
      cases hres : (analyzeTry env).result with
      | none => rw [hres] at hc; simp at hc
      | some r' =>
        rw [hres] at hc
        cases hh : (analyzeTry env).handle with
        | none =>
          have hcap : uploadCaptured env = false := by
            cases hcap : uploadCaptured env
            · rfl
            · exfalso
              unfold uploadCaptured at hcap
              simp only [Bool.and_eq_true, decide_eq_true_eq] at hcap
              obtain ⟨⟨⟨-, hh1⟩, hh2⟩, hok⟩ := hcap
              cases hu : env.upload with
              | error e => rw [hu] at hok; simp [exceptOk] at hok
              | ok vf =>
                rw [analyzeTry_handle_some env vf hh1 hh2 hu] at hh
                simp at hh
          show deleteCount (analyzeTry env).events = _
          simp only [hcap, Bool.false_eq_true, if_false]
          exact analyzeTry_deleteCount_zero env
        | some n =>
          obtain ⟨hh1, hh2, vf0, hu0, hname⟩ := analyzeTry_handle_some_inv env n hh
          have hcap : uploadCaptured env = true := by
            unfold uploadCaptured
            simp [hk, hh1, hh2, hu0, exceptOk]
          show deleteCount ((analyzeTry env).events ++
            [GenEvent.deleteFile n (!env.deleteFails)]) = _
          simp only [hcap, if_true]
          rw [deleteCount_append, analyzeTry_deleteCount_zero]
          rfl
  case refine_2 =>
    intro vf hu hcap
    unfold analyze_video at hc ⊢
    unfold uploadCaptured at hcap
    simp only [Bool.and_eq_true, decide_eq_true_eq] at hcap
    obtain ⟨⟨⟨hk, hh1⟩, hh2⟩, -⟩ := hcap
    simp only [hk, if_true] at hc ⊢
    cases hres : (analyzeTry env).result with
    | none => rw [hres] at hc; simp at hc
    | some r' =>
      rw [hres] at hc
      rw [analyzeTry_handle_some env vf hh1 hh2 hu]
      exact ⟨(analyzeTry env).events, rfl, analyzeTry_deleteCount_zero env⟩

theorem analyze_video_result (env : AnalyzeEnv) (hk : env.googleKey = true) :
    (analyze_video env).result = (analyzeTry env).result := by
  unfold analyze_video
  simp only [hk, if_true]
  cases hres : (analyzeTry env).result <;>
    cases hh : (analyzeTry env).handle <;> simp [hres, hh]

theorem analyze_video_events_mono (env : AnalyzeEnv) (hk : env.googleKey = true)
    (e : GenEvent) (he : e ∈ (analyzeTry env).events) :
    e ∈ (analyze_video env).events := by
  unfold analyze_video
  simp only [hk, if_true]
  cases hres : (analyzeTry env).result <;>
    cases hh : (analyzeTry env).handle <;> simp [he]

theorem analyze_video_events_handle (env : AnalyzeEnv) (hk : env.googleKey = true)
    (r : AnalysisResult) (n : String)
    (hres : (analyzeTry env).result = some r) (hh : (analyzeTry env).handle = some n) :
    (analyze_video env).events =
      (analyzeTry env).events ++ [GenEvent.deleteFile n (!env.deleteFails)] := by
  unfold analyze_video
  simp [hk, hres, hh]

/-- Claim C6: each error condition of `analyze_video` — credential missing,
local file missing, local file empty, remote state FAILED after polling
(message containing "FAILED"), any other non-ACTIVE state after polling, and
an exception during the generation request — yields a structured error
result; the embedding is a total function, so no exception reaches the
caller. -/
theorem analysis_error_paths (env : AnalyzeEnv) :
    (env.googleKey = false →
      (analyze_video env).result =
        some (.error "Error: GOOGLE_API_KEY environment variable not set.")) ∧
    (env.googleKey = true → Disk.hasPath env.disk env.videoPath = false →
      (analyze_video env).result =
        some (.error ("Error: Video file not found at path: " ++ env.videoPath))) ∧
    (env.googleKey = true → Disk.hasPath env.disk env.videoPath = true →
      Disk.getsize env.disk env.videoPath = 0 →
      (analyze_video env).result =
        some (.error ("Error: Video file is empty: " ++ env.videoPath))) ∧
    (∀ vf, env.googleKey = true → Disk.hasPath env.disk env.videoPath = true →
      Disk.getsize env.disk env.videoPath ≠ 0 → env.upload = .ok vf →
      (pollLoop vf.name vf.state env.polls).2 = some "FAILED" →
      ∃ m, (analyze_video env).result = some (.error m) ∧
        ∃ pre post, m = pre ++ "FAILED" ++ post) ∧
    (∀ vf st, env.googleKey = true → Disk.hasPath env.disk env.videoPath = true →
      Disk.getsize env.disk env.videoPath ≠ 0 → env.upload = .ok vf →
      (pollLoop vf.name vf.state env.polls).2 = some st →
      st ≠ "FAILED" → st ≠ "ACTIVE" →
      (analyze_video env).result =
        some (.error ("Error: File is not active. State: " ++ st))) ∧
    (∀ vf e, env.googleKey = true → Disk.hasPath env.disk env.videoPath = true →
      Disk.getsize env.disk env.videoPath ≠ 0 → env.upload = .ok vf →
      (pollLoop vf.name vf.state env.polls).2 = some "ACTIVE" →
      env.generate = .error e →
      (analyze_video env).result =
        some (.error ("An unexpected error occurred during analysis: " ++ e.msg))) := by
  refine ⟨fun hk => ?_, fun hk h1 => ?_, fun hk h1 h2 => ?_, fun vf hk h1 h2 hu hpl => ?_,
    fun vf st hk h1 h2 hu hpl hF hA => ?_, fun vf e hk h1 h2 hu hpl hg => ?_⟩
  · unfold analyze_video
    simp [hk]
  · rw [analyze_video_result env hk, analyzeTry_not_found env h1]
  · rw [analyze_video_result env hk, analyzeTry_empty env h1 h2]
  · rw [analyze_video_result env hk, analyzeTry_failed env vf h1 h2 hu hpl]
    exact ⟨_, rfl, "Error: File upload failed. State: ", "", by decide⟩
  · rw [analyze_video_result env hk, analyzeTry_not_active env vf st h1 h2 hu hpl hF hA]
  · rw [analyze_video_result env hk, analyzeTry_generate_err env vf e h1 h2 hu hpl hg]

/-- Claim C8: whenever the inference stage succeeds (upload returned, polling
reached ACTIVE, generation returned text), `analyze_video` returns a success
result carrying that text, regardless of the title-extraction and search
oracles; the status field of that result is "success". -/
theorem inference_success_overall_status (env : AnalyzeEnv) (vf : UploadInfo) (txt : String)
    (hk : env.googleKey = true)
    (h1 : Disk.hasPath env.disk env.videoPath = true)
    (h2 : Disk.getsize env.disk env.videoPath ≠ 0)
    (hu : env.upload = .ok vf)
    (hpl : (pollLoop vf.name vf.state env.polls).2 = some "ACTIVE")
    (hg : env.generate = .ok txt) :
    (analyze_video env).result =
      some (.success txt (extractedTitle env) (searchOutcome env).2) ∧
    AnalysisResult.status (.success txt (extractedTitle env) (searchOutcome env).2) =
      "success" := by
  rw [analyze_video_result env hk, analyzeTry_success env vf txt h1 h2 hu hpl hg]
  exact ⟨rfl, rfl⟩

/-- Claim C10: when title extraction returns the empty string (not the
sentinel), the search stage is skipped with message "Unknown title" — the
skip condition requires a non-empty title different from the sentinel — and
the returned extracted_title field is the empty string. -/
theorem empty_title_skips_search (env : AnalyzeEnv) (vf : UploadInfo) (txt : String)
    (hk : env.googleKey = true)
    (h1 : Disk.hasPath env.disk env.videoPath = true)
    (h2 : Disk.getsize env.disk env.videoPath ≠ 0)
    (hu : env.upload = .ok vf)
    (hpl : (pollLoop vf.name vf.state env.polls).2 = some "ACTIVE")
    (hg : env.generate = .ok txt)
    (hempty : extractedTitle env = "") :
    (analyze_video env).result =
      some (.success txt "" (.skipped "Unknown title")) := by
  rw [analyze_video_result env hk, analyzeTry_success env vf txt h1 h2 hu hpl hg]
  simp [searchOutcome, hempty]

/-- Claim C7: `search_for_title` returns status error before issuing any
request when the search credential is missing; with the credential set it
issues exactly one query of the form "where to legally watch {title}" and
classifies the outcome as no_results on an empty result set, error with a
message on an exception, and success with the verbatim ordered result list
otherwise; and when the extracted title equals the sentinel, `analyze_video`
never invokes the search client and attaches status skipped. -/
theorem search_stage_classification :
    (∀ senv title, senv.tavilyKey = false →
      search_for_title senv title =
        ([], .error "TAVILY_API_KEY environment variable not set. Cannot perform search.")) ∧
    (∀ senv title e, senv.tavilyKey = true → senv.invoke = .error e →
      search_for_title senv title =
        ([.searchInvoke ("where to legally watch " ++ title)],
         .error ("An unexpected error occurred during Tavily search: " ++ e.msg))) ∧
    (∀ senv title data, senv.tavilyKey = true → senv.invoke = .ok data →
      data.getD [] = [] →
      search_for_title senv title =
        ([.searchInvoke ("where to legally watch " ++ title)],
         .no_results ("No search results found for '" ++
           ("where to legally watch " ++ title) ++ "'."))) ∧
    (∀ senv title data docs, senv.tavilyKey = true → senv.invoke = .ok data →
      data.getD [] = docs → docs ≠ [] →
      search_for_title senv title =
        ([.searchInvoke ("where to legally watch " ++ title)], .success docs)) ∧
    (∀ env vf txt, env.googleKey = true → Disk.hasPath env.disk env.videoPath = true →
      Disk.getsize env.disk env.videoPath ≠ 0 → env.upload = .ok vf →
      (pollLoop vf.name vf.state env.polls).2 = some "ACTIVE" →
      env.generate = .ok txt → extractedTitle env = "Unknown Title" →
      (analyze_video env).result =
        some (.success txt "Unknown Title" (.skipped "Unknown title")) ∧
      ∀ q, GenEvent.searchInvoke q ∉ (analyze_video env).events) := by
  refine ⟨fun senv title hkey => ?_, fun senv title e hkey hinv => ?_,
    fun senv title data hkey hinv hempty => ?_,
    fun senv title data docs hkey hinv hdocs hne => ?_,
    fun env vf txt hk h1 h2 hu hpl hg hsent => ⟨?_, ?_⟩⟩
  · unfold search_for_title
    simp [hkey]
  · unfold search_for_title
    simp [hkey, hinv]
  · unfold search_for_title
    simp [hkey, hinv, hempty]
  · unfold search_for_title
    subst hdocs
    simp [hkey, hinv, hne]
  · rw [analyze_video_result env hk, analyzeTry_success env vf txt h1 h2 hu hpl hg]
    simp [searchOutcome, hsent]
  · intro q hq
    have hres := analyzeTry_success env vf txt h1 h2 hu hpl hg
    have hso : searchOutcome env = ([], SearchInfo.skipped "Unknown title") := by
      simp [searchOutcome, hsent]
    rw [analyze_video_events_handle env hk _ vf.name (by rw [hres]) (by rw [hres]),
      hres, hso] at hq
    simp only [List.mem_append, List.mem_cons, List.not_mem_nil, or_false,
      or_assoc] at hq
    rcases hq with hq | hq | hq | hq | hq
    · exact absurd hq (by simp)
    · rcases pollLoop_events_shape vf.name env.polls vf.state _ hq with h | ⟨m, h⟩ <;>
        simp at h
    · exact absurd hq (by simp)
    · exact absurd hq (by simp)
    · exact absurd hq (by simp)


theorem pollLoop_exit_ne' : ∀ name s polls t,
    (pollLoop name s polls).2 = some t → t ≠ "PROCESSING" :=
  fun name s polls => pollLoop_exit_ne name polls s

/-- Claim C3: the polling loop exits only with a state other than
PROCESSING; it terminates exactly when the initial state or some polled
state differs from PROCESSING; when every state is PROCESSING it runs
without bound (for every n, a run of n all-PROCESSING polls sleeps n+1
times) — there is no overall timeout; every sleep is the fixed 10-second
interval; and the two generation requests are bounded: every analysis
request carries timeout 600 and every title request timeout 60, and both
are issued on the corresponding paths. -/
theorem polling_and_timeout_spec :
    (∀ name s polls t, (pollLoop name s polls).2 = some t → t ≠ "PROCESSING") ∧
    (∀ name s polls, (pollLoop name s polls).2.isSome = true ↔
      (s ≠ "PROCESSING" ∨ ∃ x ∈ polls, x ≠ "PROCESSING")) ∧
    (∀ name n, (pollLoop name "PROCESSING" (List.replicate n "PROCESSING")).2 = none ∧
      sleepCount (pollLoop name "PROCESSING" (List.replicate n "PROCESSING")).1 = n + 1) ∧
    (∀ name s polls t, GenEvent.sleep t ∈ (pollLoop name s polls).1 → t = 10) ∧
    (∀ env t, GenEvent.generate t ∈ (analyze_video env).events → t = 600) ∧
    (∀ env t, GenEvent.titleRequest t ∈ (analyze_video env).events → t = 60) ∧
    (∀ env vf, env.googleKey = true → Disk.hasPath env.disk env.videoPath = true →
      Disk.getsize env.disk env.videoPath ≠ 0 → env.upload = .ok vf →
      (pollLoop vf.name vf.state env.polls).2 = some "ACTIVE" →
      GenEvent.generate 600 ∈ (analyze_video env).events) ∧
    (∀ env vf txt, env.googleKey = true → Disk.hasPath env.disk env.videoPath = true →
      Disk.getsize env.disk env.videoPath ≠ 0 → env.upload = .ok vf →
      (pollLoop vf.name vf.state env.polls).2 = some "ACTIVE" →
      env.generate = .ok txt →
      GenEvent.titleRequest 60 ∈ (analyze_video env).events) := by
  refine ⟨pollLoop_exit_ne', ?_, ?_, ?_, ?_, ?_, ?_, ?_⟩
  · intro name s polls
    exact pollLoop_isSome_iff name polls s
  · intro name n
    exact pollLoop_all_processing name n
  · intro name s polls t ht
    rcases pollLoop_events_shape name polls s _ ht with h | ⟨m, h⟩ <;> simp at h
    exact h
  · intro env t ht
    have := analyze_events_shape env _ ht
    simpa [wfEvent] using this
  · intro env t ht
    have := analyze_events_shape env _ ht
    simpa [wfEvent] using this
  · intro env vf hk h1 h2 hu hpl
    apply analyze_video_events_mono env hk
    cases hg : env.generate with
    | error e =>
      rw [analyzeTry_generate_err env vf e h1 h2 hu hpl hg]
      simp
    | ok txt =>
      rw [analyzeTry_success env vf txt h1 h2 hu hpl hg]
      simp
  · intro env vf txt hk h1 h2 hu hpl hg
    apply analyze_video_events_mono env hk
    rw [analyzeTry_success env vf txt h1 h2 hu hpl hg]
    simp

/-- Claim C5: when FFmpeg is present the single download attempt requests
format "bestvideo+bestaudio/best" merged into an mp4 container, and no retry
is performed even when the attempt raises; when FFmpeg is absent the first
attempt requests the single best pre-muxed stream ("best", no merge), a
successful first attempt stays the only one, and a raising first attempt is
followed by exactly one retry whose options differ only in format "worst". -/
theorem fetch_strategy_selection (env : DownloadEnv) (d0 : Disk) :
    (env.ffmpeg = true →
      fetchAttempts (download_video_from_url env d0).events = [opts1 env] ∧
      (opts1 env).format = "bestvideo+bestaudio/best" ∧
      (opts1 env).merge_output_format = some "mp4") ∧
    (env.ffmpeg = false →
      ((opts1 env).format = "best" ∧ (opts1 env).merge_output_format = none) ∧
      (∀ name, env.call1.result = .ok name →
        fetchAttempts (download_video_from_url env d0).events = [opts1 env]) ∧
      (∀ e, env.call1.result = .error e →
        fetchAttempts (download_video_from_url env d0).events =
          [opts1 env, { opts1 env with format := "worst" }])) := by
  refine ⟨fun hf => ?_, fun hf => ⟨⟨?_, ?_⟩, fun name h1 => ?_, fun e h1 => ?_⟩⟩
  · rw [download_attempts_eq, attemptEvents_ffmpeg env hf]
    simp [fetchAttempts, opts1, hf]
  · simp [opts1, hf]
  · simp [opts1, hf]
  · rw [download_attempts_eq, attemptEvents_ok env name h1]
    simp [fetchAttempts]
  · rw [download_attempts_eq, attemptEvents_retry env e hf h1]
    simp [fetchAttempts, opts2]

/-- Claim C4 (amended): `download_video_from_url` never raises — an
exception in every attempt yields the absence signal None; so does an
empty result (the attempt returned but no candidate file was selected,
`downloaded_filepath` staying None), a candidate missing from disk, and a
zero-byte candidate, which is removed before returning None; the temporary
cookie file is deleted on every exit path whenever one was materialized,
and no cookie-file removal is issued otherwise.  (The claim as stated is
false: a partial file written by the download library during a raising
attempt is not deleted — see the counterexample.) -/
theorem fetch_failure_returns_none (env : DownloadEnv) (d0 : Disk) :
    (∀ e₁, env.call1.result = .error e₁ → env.ffmpeg = true →
      (download_video_from_url env d0).result = none) ∧
    (∀ e₁ e₂, env.call1.result = .error e₁ → env.call2.result = .error e₂ →
      env.ffmpeg = false → (download_video_from_url env d0).result = none) ∧
    (attemptCand env (cookieDisk env d0) = none →
      (download_video_from_url env d0).result = none) ∧
    (∀ p, attemptCand env (cookieDisk env d0) = some p → attemptRaised env = false →
      (Disk.hasPath (attemptDisk env (cookieDisk env d0)) p = false →
        (download_video_from_url env d0).result = none) ∧
      (Disk.hasPath (attemptDisk env (cookieDisk env d0)) p = true →
       Disk.getsize (attemptDisk env (cookieDisk env d0)) p = 0 →
        (download_video_from_url env d0).result = none ∧
        FetchEvent.removeFile p ∈ (download_video_from_url env d0).events ∧
        Disk.hasPath (download_video_from_url env d0).disk p = false)) ∧
    (cookieTruthy env.cookies = true →
      Disk.hasPath (download_video_from_url env d0).disk env.cookiePath = false) ∧
    (cookieTruthy env.cookies = false →
      ∀ q, FetchEvent.removeCookie q ∉ (download_video_from_url env d0).events) := by
  refine ⟨fun e₁ h1 hf => ?_, fun e₁ e₂ h1 h2 hf => ?_, fun hc0 => ?_,
    fun p hc hr => ⟨fun hnp => ?_, fun hp hz => ?_⟩, fun ht => ?_, fun ht q => ?_⟩
  · rw [download_video_from_url, cookieCleanup_result]
    apply validatePhase_result_none_of_cand
    show attemptCand env (cookieDisk env d0) = none
    unfold attemptCand
    rw [h1]
    simp [hf]
  · rw [download_video_from_url, cookieCleanup_result]
    apply validatePhase_result_none_of_raised
    show attemptRaised env = true
    unfold attemptRaised
    rw [h1, h2]
    simp [hf]
  · rw [download_video_from_url, cookieCleanup_result]
    exact validatePhase_result_none_of_cand _ hc0
  · rw [download_video_from_url, cookieCleanup_result]
    unfold validatePhase attemptPhase
    simp [hc, hr, hnp]
  · have hv : validatePhase (attemptPhase env (cookieDisk env d0)) =
        { result := none, disk := Disk.remove (attemptDisk env (cookieDisk env d0)) p,
          events := attemptEvents env ++ [.removeFile p] } := by
      unfold validatePhase attemptPhase
      simp [hc, hr, hp, hz]
    rw [download_video_from_url, hv]
    refine ⟨cookieCleanup_result .., ?_, ?_⟩
    · exact cookieCleanup_mem _ _ _ (by simp)
    · exact cookieCleanup_hasPath_false _ _ _ (Disk.hasPath_remove_self _ _)
  · rw [download_video_from_url]
    exact cookieCleanup_cookie_absent _ _ ht
  · rw [download_video_from_url]
    unfold cookieCleanup
    rw [ht]
    simp only [Bool.false_and, Bool.false_eq_true, if_false]
    exact validatePhase_no_removeCookie _ _ (attemptEvents_no_removeCookie env q)

/-- Claim C4 counterexample: without FFmpeg both attempts raise after the
first wrote a partial file; the function returns the absence signal, yet
the partial file it produced is still on disk, contradicting "after
deleting any partial file it produced". -/
theorem fetch_stray_file_cex :
    (download_video_from_url cexFetchEnv []).result = none ∧
    Disk.hasPath (download_video_from_url cexFetchEnv []).disk "/tmp/u4.f616.part" = true ∧
    Disk.hasPath ([] : Disk) "/tmp/u4.f616.part" = false :=
  ⟨rfl, rfl, rfl⟩

theorem endpoint_local_cleanup (url : String) (p : String) (d : Disk)
    (ac : CallResult (Option AnalysisResult))
    (hresp : (analyze_video_endpoint url (.ok (some p)) d ac).response.isSome = true) :
    Disk.hasPath (analyze_video_endpoint url (.ok (some p)) d ac).disk p = false := by
  unfold analyze_video_endpoint
  cases ac with
  | exn e => exact cleanupLocal_absent _ _
  | ok o =>
    cases o with
    | none =>
      unfold analyze_video_endpoint at hresp
      simp at hresp
    | some r =>
      dsimp only
      split <;> exact cleanupLocal_absent _ _

/-- Claim C1 (amended): for every pipeline run at the HTTP boundary that
completes, the local path returned by the fetch stage is absent from disk
after the run — the endpoint's guaranteed-cleanup block removes it.  (The
claim as stated is false: a partial file created by the download library
during a raising attempt, at a path other than the selected candidate, is
not removed by the fetch stage — see the counterexample.) -/
theorem returned_local_path_cleanup (url : String) (denv : DownloadEnv) (d0 : Disk)
    (tmpl : AnalyzeEnv) (resp : HttpResponse)
    (hc : (pipelineRun url denv d0 tmpl).response = some resp) :
    ∀ p, (download_video_from_url denv d0).result = some p →
      Disk.hasPath (pipelineRun url denv d0 tmpl).disk p = false := by
  intro p hp
  have hrun : pipelineRun url denv d0 tmpl =
      analyze_video_endpoint url (.ok (some p)) (download_video_from_url denv d0).disk
        (.ok (analyze_video
          (withFetched tmpl (download_video_from_url denv d0).disk p)).result) := by
    unfold pipelineRun
    dsimp only
    rw [hp]
  rw [hrun] at hc ⊢
  exact endpoint_local_cleanup url p _ _ (by rw [hc]; rfl)

/-- Claim C1 counterexample: FFmpeg present, the single attempt raises
after writing a partial file; the fetch stage returns its absence signal
without removing that file, the endpoint completes with a 400 response, and
the file created by the fetch stage is still on disk after the run. -/
theorem local_file_leak_cex :
    (pipelineRun "https://youtu.be/x" cexPipeFetchEnv [] cexTmplEnv).response.isSome = true ∧
    Disk.hasPath (pipelineRun "https://youtu.be/x" cexPipeFetchEnv [] cexTmplEnv).disk
      "/tmp/u1.f401.part" = true ∧
    Disk.hasPath ([] : Disk) "/tmp/u1.f401.part" = false :=
  ⟨rfl, rfl, rfl⟩

/-- Claim C9: at the HTTP boundary, a fetch returning no file produces a
400 response whose detail names the URL; an exception in either awaited
call, or an analysis result with status "error", produces a 500 response
with a detail message; otherwise the analysis result is returned as-is (a
200 response). -/
theorem endpoint_status_codes (url : String) (d : Disk)
    (fetchCall : CallResult (Option String)) (analyzeCall : CallResult (Option AnalysisResult)) :
    (fetchCall = .ok none →
      ∃ detail, (analyze_video_endpoint url fetchCall d analyzeCall).response =
          some (.err 400 detail) ∧ ∃ a b, detail = a ++ url ++ b) ∧
    (∀ e, fetchCall = .exn e →
      ∃ detail, (analyze_video_endpoint url fetchCall d analyzeCall).response =
          some (.err 500 detail)) ∧
    (∀ p e, fetchCall = .ok (some p) → analyzeCall = .exn e →
      ∃ detail, (analyze_video_endpoint url fetchCall d analyzeCall).response =
          some (.err 500 detail)) ∧
    (∀ p r, fetchCall = .ok (some p) → analyzeCall = .ok (some r) → r.status = "error" →
      ∃ detail, (analyze_video_endpoint url fetchCall d analyzeCall).response =
          some (.err 500 detail)) ∧
    (∀ p r, fetchCall = .ok (some p) → analyzeCall = .ok (some r) → r.status ≠ "error" →
      (analyze_video_endpoint url fetchCall d analyzeCall).response = some (.ok r)) := by
  refine ⟨fun h => ?_, fun e h => ?_, fun p e hf ha => ?_, fun p r hf ha hs => ?_,
    fun p r hf ha hs => ?_⟩
  · subst h
    exact ⟨_, rfl, _, _, rfl⟩
  · subst h
    exact ⟨_, rfl⟩
  · subst hf; subst ha
    exact ⟨_, rfl⟩
  · subst hf; subst ha
    unfold analyze_video_endpoint
    simp [hs]
  · subst hf; subst ha
    unfold analyze_video_endpoint
    simp [hs]

/-- Witness for claim C5 at concrete fetch environments. -/
theorem fetch_strategy_selection_witness :
    fetchAttempts (download_video_from_url wFetchEnv []).events = [opts1 wFetchEnv] ∧
    (opts1 wFetchEnv).format = "bestvideo+bestaudio/best" ∧
    (opts1 wFetchEnv).merge_output_format = some "mp4" ∧
    fetchAttempts (download_video_from_url wFailFetchEnv []).events =
      [opts1 wFailFetchEnv, { opts1 wFailFetchEnv with format := "worst" }] := by
  refine ⟨?_, ?_, ?_, ?_⟩
  · exact ((fetch_strategy_selection wFetchEnv []).1 rfl).1
  · exact ((fetch_strategy_selection wFetchEnv []).1 rfl).2.1
  · exact ((fetch_strategy_selection wFetchEnv []).1 rfl).2.2
  · exact ((fetch_strategy_selection wFailFetchEnv []).2 rfl).2.2
      { msg := "HTTP Error 403" } rfl

/-- Witness for claim C4 at a concrete double-failure fetch environment and
at a concrete empty-result fetch environment. -/
theorem fetch_failure_returns_none_witness :
    (download_video_from_url wFailFetchEnv []).result = none ∧
    Disk.hasPath (download_video_from_url wFailFetchEnv []).disk "/tmp/wfcookies.txt" = false ∧
    attemptCand wNoFileFetchEnv (cookieDisk wNoFileFetchEnv []) = none ∧
    (download_video_from_url wNoFileFetchEnv []).result = none := by
  refine ⟨?_, ?_, rfl, ?_⟩
  · exact (fetch_failure_returns_none wFailFetchEnv []).2.1
      { msg := "HTTP Error 403" } { msg := "HTTP Error 403" } rfl rfl rfl
  · exact (fetch_failure_returns_none wFailFetchEnv []).2.2.2.2.1 rfl
  · exact (fetch_failure_returns_none wNoFileFetchEnv []).2.2.1 rfl

/-- Witness for claim C1 at a concrete completed run. -/
theorem returned_local_path_cleanup_witness :
    (pipelineRun "https://example.com/v" wFetchEnv [] cexTmplEnv).response.isSome = true ∧
    (download_video_from_url wFetchEnv []).result = some "/tmp/w1.mp4" ∧
    Disk.hasPath (pipelineRun "https://example.com/v" wFetchEnv [] cexTmplEnv).disk
      "/tmp/w1.mp4" = false := by
  refine ⟨rfl, rfl, ?_⟩
  exact returned_local_path_cleanup "https://example.com/v" wFetchEnv [] cexTmplEnv _ rfl
    "/tmp/w1.mp4" rfl

/-- Witness for claim C2 at a concrete successful run. -/
theorem remote_handle_single_deletion_witness :
    uploadCaptured wAnalyzeEnv = true ∧
    deleteCount (analyze_video wAnalyzeEnv).events = 1 := by
  refine ⟨rfl, ?_⟩
  exact ((remote_handle_single_deletion wAnalyzeEnv _ rfl).1).trans (by decide)

/-- Witness for claim C3 at concrete polling sequences and a concrete run. -/
theorem polling_and_timeout_spec_witness :
    ("ACTIVE" : String) ≠ "PROCESSING" ∧
    (pollLoop "files/w1" "PROCESSING" (List.replicate 3 "PROCESSING")).2 = none ∧
    sleepCount (pollLoop "files/w1" "PROCESSING" (List.replicate 3 "PROCESSING")).1 = 4 ∧
    GenEvent.generate 600 ∈ (analyze_video wAnalyzeEnv).events ∧
    GenEvent.titleRequest 60 ∈ (analyze_video wAnalyzeEnv).events := by
  refine ⟨?_, ?_, ?_, ?_, ?_⟩
  · exact polling_and_timeout_spec.1 "files/w1" "ACTIVE" [] "ACTIVE" rfl
  · exact (polling_and_timeout_spec.2.2.1 "files/w1" 3).1
  · exact (polling_and_timeout_spec.2.2.1 "files/w1" 3).2
  · exact polling_and_timeout_spec.2.2.2.2.2.2.1 wAnalyzeEnv
      { name := "files/w1", state := "PROCESSING" } rfl rfl (by decide) rfl rfl
  · exact polling_and_timeout_spec.2.2.2.2.2.2.2 wAnalyzeEnv
      { name := "files/w1", state := "PROCESSING" }
      "The clip is from the film Dune (2021)." rfl rfl (by decide) rfl rfl rfl

/-- Witness for claim C6 at a run whose remote file reaches FAILED. -/
theorem analysis_error_paths_witness :
    ∃ m, (analyze_video wFailedEnv).result = some (.error m) ∧
      ∃ pre post, m = pre ++ "FAILED" ++ post :=
  (analysis_error_paths wFailedEnv).2.2.2.1
    { name := "files/w1", state := "PROCESSING" } rfl rfl (by decide) rfl rfl

/-- Witness for claim C7 at a credential-less search environment and a sentinel-title run. -/
theorem search_stage_classification_witness :
    search_for_title { tavilyKey := false, invoke := .error { msg := "x" } } "Dune (2021)" =
      ([], .error "TAVILY_API_KEY environment variable not set. Cannot perform search.") ∧
    (analyze_video wSentinelEnv).result =
      some (.success "The clip is from the film Dune (2021)." "Unknown Title"
        (.skipped "Unknown title")) := by
  refine ⟨?_, ?_⟩
  · exact search_stage_classification.1 _ "Dune (2021)" rfl
  · exact (search_stage_classification.2.2.2.2 wSentinelEnv
      { name := "files/w1", state := "PROCESSING" } _ rfl rfl (by decide) rfl rfl rfl rfl).1

/-- Witness for claim C8 at a concrete successful run. -/
theorem inference_success_overall_status_witness :
    (analyze_video wAnalyzeEnv).result =
      some (.success "The clip is from the film Dune (2021)."
        (extractedTitle wAnalyzeEnv) (searchOutcome wAnalyzeEnv).2) ∧
    AnalysisResult.status (.success "The clip is from the film Dune (2021)."
      (extractedTitle wAnalyzeEnv) (searchOutcome wAnalyzeEnv).2) = "success" :=
  inference_success_overall_status wAnalyzeEnv
    { name := "files/w1", state := "PROCESSING" } _ rfl rfl (by decide) rfl rfl rfl

/-- Witness for claim C9 at a concrete failed fetch. -/
theorem endpoint_status_codes_witness :
    ∃ detail, (analyze_video_endpoint "https://example.com/v"
        (.ok none) [] (.ok none)).response = some (.err 400 detail) ∧
      ∃ a b, detail = a ++ "https://example.com/v" ++ b :=
  (endpoint_status_codes "https://example.com/v" [] (.ok none) (.ok none)).1 rfl

/-- Witness for claim C10 at a run whose title extraction returns the empty string. -/
theorem empty_title_skips_search_witness :
    (analyze_video wEmptyTitleEnv).result =
      some (.success "The clip is from the film Dune (2021)." "" (.skipped "Unknown title")) :=
  empty_title_skips_search wEmptyTitleEnv
    { name := "files/w1", state := "PROCESSING" } _ rfl rfl (by decide) rfl rfl rfl rfl

end VideoAnalyzer
